import Mathlib

/-!
Verification of the lithophane core of Studio-Pro.

The embedded components, translated from the TypeScript source:

* `ImageProcessor.generateHeightmap` — heightmap extraction
  (src/apps/app3d/core/exporter.ts, ImageProcessor.generateHeightmap).
* `ImageProcessor.applyPointOps` and `ImageProcessor.applyFilters` — the
  raster filter stage (exporter.ts, ImageProcessor.applyFilters).
* `STLExporter.parse` — the binary mesh serializer (exporter.ts,
  STLExporter.parse).  The 4-byte IEEE-754 encoding performed by
  `DataView.setFloat32` is abstracted as an encoder parameter producing
  four bytes per scalar; everything else (layout, offsets, counts) is
  embedded exactly.
* `GeometryGenerator` — the relief mesh builder
  (src/apps/app3d/core/geometryGenerator.ts, generateMesh): frame segment
  counts, grid sizing, per-vertex height assignment, flat placement,
  cylindrical curvature, and the triangulation index stream.

JavaScript `number` arithmetic is modelled over `ℝ` (over `ℚ` where the
source only ever produces rationals); `Uint8ClampedArray` stores clamp to
[0,255] and round half-to-even; `Math.round x` is `⌊x + 1/2⌋`; the
JavaScript `||` operator on numbers takes the right operand exactly when
the left one is zero.
-/

/-- One RGBA sample group of a `Uint8ClampedArray` pixel buffer: four
8-bit channels, each in 0..255. -/
structure Pixel where
  r : ℕ
  g : ℕ
  b : ℕ
  a : ℕ
deriving DecidableEq, Repr

namespace ImageProcessor

/-- Heightmap value of a single pixel, translated from the body of the
loop in `ImageProcessor.generateHeightmap`: alpha below 10 forces height
0, otherwise the Rec.601 luminance `0.299 r + 0.587 g + 0.114 b`
normalized by 255. -/
def heightValue (p : Pixel) : ℚ :=
  if p.a < 10 then 0
  else (0.299 * p.r + 0.587 * p.g + 0.114 * p.b) / 255

/-- Embedding of `ImageProcessor.generateHeightmap`: one normalized height per pixel,
in buffer order. -/
def generateHeightmap (pixels : List Pixel) : List ℚ :=
  pixels.map heightValue

end ImageProcessor

/-- Evaluating `List.getD` over a `map`, at an in-bounds index. -/
theorem getD_map_of_lt {α β : Type} (f : α → β) (l : List α) (i : ℕ)
    (d : α) (d' : β) (h : i < l.length) :
    (l.map f).getD i d' = f (l.getD i d) := by
  induction l generalizing i with
  | nil => simp at h
  | cons a t ih =>
      cases i with
      | zero => simp
      | succ n =>
          simp only [List.map_cons, List.getD_cons_succ]
          exact ih n (by simpa using h)

/-- C5: for every 8-bit RGBA input (each channel at most 255), every
value of the heightmap produced by `ImageProcessor.generateHeightmap`
lies in the closed interval [0, 1]. -/
theorem heightmap_values_in_unit_interval (pixels : List Pixel)
    (hleg : ∀ p ∈ pixels, p.r ≤ 255 ∧ p.g ≤ 255 ∧ p.b ≤ 255) :
    ∀ v ∈ ImageProcessor.generateHeightmap pixels, 0 ≤ v ∧ v ≤ 1 := by
  intro v hv
  simp only [ImageProcessor.generateHeightmap, List.mem_map] at hv
  obtain ⟨p, hp, rfl⟩ := hv
  obtain ⟨hr, hg, hb⟩ := hleg p hp
  unfold ImageProcessor.heightValue
  split
  · exact ⟨le_refl 0, zero_le_one⟩
  · have hr' : (p.r : ℚ) ≤ 255 := by exact_mod_cast hr
    have hg' : (p.g : ℚ) ≤ 255 := by exact_mod_cast hg
    have hb' : (p.b : ℚ) ≤ 255 := by exact_mod_cast hb
    have hr0 : (0 : ℚ) ≤ p.r := Nat.cast_nonneg _
    have hg0 : (0 : ℚ) ≤ p.g := Nat.cast_nonneg _
    have hb0 : (0 : ℚ) ≤ p.b := Nat.cast_nonneg _
    constructor
    · positivity
    · rw [div_le_one (by norm_num)]
      nlinarith

/-- Concrete instantiation of `heightmap_values_in_unit_interval` on a
one-pixel buffer. -/
theorem heightmap_values_in_unit_interval_witness :
    (∀ p ∈ [Pixel.mk 10 200 30 255], p.r ≤ 255 ∧ p.g ≤ 255 ∧ p.b ≤ 255) ∧
    (∀ v ∈ ImageProcessor.generateHeightmap [Pixel.mk 10 200 30 255],
      0 ≤ v ∧ v ≤ 1) :=
  ⟨by decide, heightmap_values_in_unit_interval _ (by decide)⟩

/-- C6: a pixel whose alpha channel is below 10 gets heightmap value
exactly 0, regardless of its color channels. -/
theorem heightmap_zero_of_transparent (pixels : List Pixel) (i : ℕ)
    (hi : i < pixels.length)
    (ha : (pixels.getD i (Pixel.mk 0 0 0 0)).a < 10) :
    (ImageProcessor.generateHeightmap pixels).getD i 1 = 0 := by
  unfold ImageProcessor.generateHeightmap
  rw [getD_map_of_lt ImageProcessor.heightValue pixels i (Pixel.mk 0 0 0 0) 1 hi]
  unfold ImageProcessor.heightValue
  rw [if_pos ha]

/-- Concrete instantiation of `heightmap_zero_of_transparent`: a fully
white pixel with alpha 5 maps to height 0. -/
theorem heightmap_zero_of_transparent_witness :
    0 < ([Pixel.mk 255 255 255 5] : List Pixel).length ∧
    ((([Pixel.mk 255 255 255 5] : List Pixel).getD 0 (Pixel.mk 0 0 0 0)).a < 10) ∧
    (ImageProcessor.generateHeightmap [Pixel.mk 255 255 255 5]).getD 0 1 = 0 :=
  ⟨by decide, by decide,
    heightmap_zero_of_transparent [Pixel.mk 255 255 255 5] 0 (by decide) (by decide)⟩

open scoped Classical

/-- The `THREE.Vector3` type over real scalars (named `Vec3` here). -/
structure Vec3 where
  x : ℝ
  y : ℝ
  z : ℝ

namespace Vec3

/-- Embedding of `THREE.Vector3.subVectors a b` (componentwise `a − b`). -/
def sub (a b : Vec3) : Vec3 :=
  ⟨a.x - b.x, a.y - b.y, a.z - b.z⟩

/-- Embedding of `THREE.Vector3.cross`: the cross product `a × b`. -/
def cross (a b : Vec3) : Vec3 :=
  ⟨a.y * b.z - a.z * b.y, a.z * b.x - a.x * b.z, a.x * b.y - a.y * b.x⟩

/-- Embedding of `THREE.Vector3.length`: the Euclidean norm. -/
noncomputable def length (v : Vec3) : ℝ :=
  Real.sqrt (v.x * v.x + v.y * v.y + v.z * v.z)

/-- Embedding of `THREE.Vector3.divideScalar`. -/
noncomputable def divideScalar (v : Vec3) (s : ℝ) : Vec3 :=
  ⟨v.x / s, v.y / s, v.z / s⟩

/-- Embedding of `THREE.Vector3.normalize`, which divides by `this.length() || 1`:
the JavaScript `||` replaces a zero length by 1, so the zero vector is
left unchanged instead of producing a division by zero. -/
noncomputable def normalize (v : Vec3) : Vec3 :=
  v.divideScalar (if v.length = 0 then 1 else v.length)

end Vec3

/-- One de-indexed triangle of the mesh: the three vertex positions read
at consecutive positions `i`, `i+1`, `i+2` of the position attribute in
`STLExporter.parse`. -/
structure Triangle where
  a : Vec3
  b : Vec3
  c : Vec3

/-- The all-zero triangle (used only as a `getD` default). -/
def Triangle.zero : Triangle :=
  ⟨⟨0, 0, 0⟩, ⟨0, 0, 0⟩, ⟨0, 0, 0⟩⟩

/-- The facet normal computed by `STLExporter.parse` for vertices
`vA, vB, vC`: `cb = vC − vB`, `ab = vA − vB`, then
`cb.cross(ab).normalize()`. -/
noncomputable def faceNormal (vA vB vC : Vec3) : Vec3 :=
  ((vC.sub vB).cross (vA.sub vB)).normalize

/-- The four bytes written by `DataView.setUint32(_, n, true)`
(little-endian). -/
def uint32LE (n : ℕ) : List ℕ :=
  [n % 256, n / 256 % 256, n / 65536 % 256, n / 16777216 % 256]

/-- Twelve bytes of a 3-component vector: each scalar through the 4-byte
little-endian float encoder `enc` (the `DataView.setFloat32` layout,
abstracted). -/
def encodeVec3 (enc : ℝ → List ℕ) (v : Vec3) : List ℕ :=
  enc v.x ++ enc v.y ++ enc v.z

/-- One 50-byte record of the binary STL body: facet normal, the three
vertices in winding order, then the 2-byte attribute count written as 0
by `view.setUint16(offset, 0, true)`. -/
noncomputable def triangleRecord (enc : ℝ → List ℕ) (t : Triangle) : List ℕ :=
  encodeVec3 enc (faceNormal t.a t.b t.c) ++
  encodeVec3 enc t.a ++ encodeVec3 enc t.b ++ encodeVec3 enc t.c ++ [0, 0]

namespace STLExporter

/-- Embedding of `STLExporter.parse` on the de-indexed triangle list: an 80-byte
zeroed header (the `ArrayBuffer` is zero-initialized and the header is
left empty), the little-endian triangle count at offset 80, then one
50-byte record per triangle. -/
noncomputable def parse (enc : ℝ → List ℕ) (tris : List Triangle) : List ℕ :=
  List.replicate 80 0 ++ uint32LE tris.length ++
    (tris.map (triangleRecord enc)).flatten

end STLExporter

/-- Reading a 4-byte little-endian unsigned integer back from a byte
buffer (`DataView.getUint32(off, true)`). -/
def readUint32LE (buf : List ℕ) (off : ℕ) : ℕ :=
  buf.getD off 0 + 256 * buf.getD (off + 1) 0 +
  65536 * buf.getD (off + 2) 0 + 16777216 * buf.getD (off + 3) 0

theorem encodeVec3_length (enc : ℝ → List ℕ) (h4 : ∀ x, (enc x).length = 4)
    (v : Vec3) : (encodeVec3 enc v).length = 12 := by
  simp [encodeVec3, h4]

theorem triangleRecord_length (enc : ℝ → List ℕ) (h4 : ∀ x, (enc x).length = 4)
    (t : Triangle) : (triangleRecord enc t).length = 50 := by
  simp [triangleRecord, encodeVec3_length enc h4]

/-- Slicing a flattened list of constant-length chunks recovers the
chunks. -/
theorem flatten_slice {α : Type} (l : List (List α)) (c : ℕ)
    (h : ∀ x ∈ l, x.length = c) (i : ℕ) (hi : i < l.length) :
    ((l.flatten).drop (c * i)).take c = l.getD i [] := by
  induction l generalizing i with
  | nil => simp at hi
  | cons a t ih =>
      cases i with
      | zero =>
          have ha : a.length = c := h a (by simp)
          simp only [Nat.mul_zero, List.flatten_cons, List.drop_zero,
            List.getD_cons_zero]
          rw [← ha, List.take_left]
      | succ n =>
          have ha : a.length = c := h a (by simp)
          have hrw : c * (n + 1) = a.length + c * n := by
            rw [ha]; ring
          simp only [List.flatten_cons, List.getD_cons_succ]
          rw [hrw, List.drop_append]
          exact ih (fun x hx => h x (by simp [hx])) n (by simpa using hi)

theorem recordLengths_sum (enc : ℝ → List ℕ) (h4 : ∀ x, (enc x).length = 4) :
    ∀ l : List Triangle,
      ((l.map (triangleRecord enc)).map List.length).sum = 50 * l.length := by
  intro l
  induction l with
  | nil => simp
  | cons a t ih =>
      simp only [List.map_cons, List.sum_cons, List.length_cons,
        triangleRecord_length enc h4, ih]
      ring

/-- C3: the serialized buffer has exactly `84 + 50·T` bytes; the 4-byte
little-endian count at offset 80 reads back as exactly `T`; and the
`i`-th 50-byte record is the 12-byte encoded facet normal, the three
12-byte encoded vertices in winding order, and the 2-byte zero attribute
field. -/
theorem stl_buffer_layout (enc : ℝ → List ℕ) (tris : List Triangle)
    (h4 : ∀ x, (enc x).length = 4) (hT1 : 1 ≤ tris.length)
    (hT : tris.length < 4294967296) :
    (STLExporter.parse enc tris).length = 84 + 50 * tris.length ∧
    readUint32LE (STLExporter.parse enc tris) 80 = tris.length ∧
    ∀ i, i < tris.length →
      ((STLExporter.parse enc tris).drop (84 + 50 * i)).take 50 =
        encodeVec3 enc (faceNormal (tris.getD i Triangle.zero).a
            (tris.getD i Triangle.zero).b (tris.getD i Triangle.zero).c) ++
          encodeVec3 enc (tris.getD i Triangle.zero).a ++
          encodeVec3 enc (tris.getD i Triangle.zero).b ++
          encodeVec3 enc (tris.getD i Triangle.zero).c ++ [0, 0] := by
  have hlen50 : ∀ x ∈ tris.map (triangleRecord enc), x.length = 50 := by
    intro x hx
    obtain ⟨t, _, rfl⟩ := List.mem_map.mp hx
    exact triangleRecord_length enc h4 t
  refine ⟨?_, ?_, ?_⟩
  · simp only [STLExporter.parse, List.length_append, List.length_replicate,
      List.length_flatten, recordLengths_sum enc h4, uint32LE]
    simp
  · have hgd : ∀ k, k < 4 →
        (STLExporter.parse enc tris).getD (80 + k) 0 =
          (uint32LE tris.length).getD k 0 := by
      intro k hk
      simp only [STLExporter.parse]
      rw [List.append_assoc]
      rw [List.getD_append_right _ _ _ _ (by simp)]
      simp only [List.length_replicate, Nat.add_sub_cancel_left]
      rw [List.getD_append _ _ _ _ (by simp [uint32LE]; omega)]
    simp only [readUint32LE]
    rw [show (80 : ℕ) = 80 + 0 from rfl, hgd 0 (by norm_num)]
    rw [show (80 + 0 + 1 : ℕ) = 80 + 1 from rfl, hgd 1 (by norm_num)]
    rw [show (80 + 1 + 1 : ℕ) = 80 + 2 from rfl, hgd 2 (by norm_num)]
    rw [show (80 + 2 + 1 : ℕ) = 80 + 3 from rfl, hgd 3 (by norm_num)]
    simp only [uint32LE, List.getD_cons_zero, List.getD_cons_succ]
    omega
  · intro i hi
    have h84 : (List.replicate 80 (0 : ℕ) ++ uint32LE tris.length).length = 84 := by
      simp [uint32LE]
    show (((List.replicate 80 0 ++ uint32LE tris.length) ++
        (tris.map (triangleRecord enc)).flatten).drop (84 + 50 * i)).take 50 = _
    rw [show 84 + 50 * i =
        (List.replicate 80 (0 : ℕ) ++ uint32LE tris.length).length + 50 * i from by
      rw [h84]]
    rw [List.drop_append]
    rw [flatten_slice _ 50 hlen50 i (by simpa using hi)]
    rw [getD_map_of_lt (triangleRecord enc) tris i Triangle.zero [] hi]
    rfl

/-- Concrete instantiation of `stl_buffer_layout` on a one-triangle mesh
with a constant 4-byte encoder. -/
theorem stl_buffer_layout_witness :
    (∀ x : ℝ, ((fun _ : ℝ => [0, 0, 0, 0]) x).length = 4) ∧
    1 ≤ ([Triangle.zero] : List Triangle).length ∧
    ([Triangle.zero] : List Triangle).length < 4294967296 ∧
    (STLExporter.parse (fun _ => [0, 0, 0, 0]) [Triangle.zero]).length =
      84 + 50 * ([Triangle.zero] : List Triangle).length ∧
    readUint32LE (STLExporter.parse (fun _ => [0, 0, 0, 0]) [Triangle.zero]) 80 =
      ([Triangle.zero] : List Triangle).length := by
  have h := stl_buffer_layout (fun _ => [0, 0, 0, 0]) [Triangle.zero]
    (fun x => rfl) (by decide) (by decide)
  exact ⟨fun x => rfl, by decide, by decide, h.1, h.2.1⟩

/-- C8 (amended): `STLExporter.parse` performs no empty-mesh validation.
On a zero-triangle input it returns the 84-byte buffer consisting of the
zeroed header and a zero triangle count, rather than raising an
`EmptyMeshError` — the source has no failure path at all. -/
theorem stl_parse_empty (enc : ℝ → List ℕ) :
    STLExporter.parse enc [] = List.replicate 84 0 ∧
    readUint32LE (STLExporter.parse enc []) 80 = 0 :=
  ⟨rfl, rfl⟩

/-- C8 counterexample to the claim as stated: on the zero-triangle mesh
the serializer does not fail — it returns an (84-byte) buffer. -/
theorem stl_parse_empty_returns_buffer :
    (STLExporter.parse (fun _ => [0, 0, 0, 0]) []).length = 84 := rfl

/-- C9: the facet normal written by the serializer for a triangle
`A B C` is `normalize((C−B)×(A−B))` — the cross product divided by its
length — and for a degenerate triangle (zero-length cross product) it is
the zero vector: the division-by-zero is avoided because
`THREE.Vector3.normalize` divides by `length || 1`. -/
theorem facet_normal_spec (vA vB vC : Vec3) :
    (((vC.sub vB).cross (vA.sub vB)).length = 0 →
        faceNormal vA vB vC = ⟨0, 0, 0⟩) ∧
    (((vC.sub vB).cross (vA.sub vB)).length ≠ 0 →
        faceNormal vA vB vC =
          ((vC.sub vB).cross (vA.sub vB)).divideScalar
            ((vC.sub vB).cross (vA.sub vB)).length) := by
  constructor
  · intro h0
    have hnn : 0 ≤ ((vC.sub vB).cross (vA.sub vB)).x * ((vC.sub vB).cross (vA.sub vB)).x +
        ((vC.sub vB).cross (vA.sub vB)).y * ((vC.sub vB).cross (vA.sub vB)).y +
        ((vC.sub vB).cross (vA.sub vB)).z * ((vC.sub vB).cross (vA.sub vB)).z := by
      have h1 := mul_self_nonneg ((vC.sub vB).cross (vA.sub vB)).x
      have h2 := mul_self_nonneg ((vC.sub vB).cross (vA.sub vB)).y
      have h3 := mul_self_nonneg ((vC.sub vB).cross (vA.sub vB)).z
      linarith
    have hsum : ((vC.sub vB).cross (vA.sub vB)).x * ((vC.sub vB).cross (vA.sub vB)).x +
        ((vC.sub vB).cross (vA.sub vB)).y * ((vC.sub vB).cross (vA.sub vB)).y +
        ((vC.sub vB).cross (vA.sub vB)).z * ((vC.sub vB).cross (vA.sub vB)).z = 0 := by
      have hle := Real.sqrt_eq_zero'.mp h0
      linarith
    have h1 := mul_self_nonneg ((vC.sub vB).cross (vA.sub vB)).x
    have h2 := mul_self_nonneg ((vC.sub vB).cross (vA.sub vB)).y
    have h3 := mul_self_nonneg ((vC.sub vB).cross (vA.sub vB)).z
    have hx : ((vC.sub vB).cross (vA.sub vB)).x = 0 :=
      mul_self_eq_zero.mp (le_antisymm (by linarith) (by linarith))
    have hy : ((vC.sub vB).cross (vA.sub vB)).y = 0 :=
      mul_self_eq_zero.mp (le_antisymm (by linarith) (by linarith))
    have hz : ((vC.sub vB).cross (vA.sub vB)).z = 0 :=
      mul_self_eq_zero.mp (le_antisymm (by linarith) (by linarith))
    show ((vC.sub vB).cross (vA.sub vB)).normalize = _
    rw [Vec3.normalize, if_pos h0]
    simp [Vec3.divideScalar, hx, hy, hz]
  · intro hne
    show ((vC.sub vB).cross (vA.sub vB)).normalize = _
    rw [Vec3.normalize, if_neg hne]

/-- Concrete instantiations of `facet_normal_spec`: a fully degenerate
triangle yields the zero normal; the right triangle on the unit axes
yields the cross product divided by its (unit) length. -/
theorem facet_normal_spec_witness :
    (((Vec3.mk 0 0 0).sub (Vec3.mk 0 0 0)).cross
        ((Vec3.mk 0 0 0).sub (Vec3.mk 0 0 0))).length = 0 ∧
    faceNormal (Vec3.mk 0 0 0) (Vec3.mk 0 0 0) (Vec3.mk 0 0 0) = ⟨0, 0, 0⟩ ∧
    (((Vec3.mk 0 1 0).sub (Vec3.mk 1 0 0)).cross
        ((Vec3.mk 0 0 0).sub (Vec3.mk 1 0 0))).length ≠ 0 ∧
    faceNormal (Vec3.mk 0 0 0) (Vec3.mk 1 0 0) (Vec3.mk 0 1 0) =
      (((Vec3.mk 0 1 0).sub (Vec3.mk 1 0 0)).cross
          ((Vec3.mk 0 0 0).sub (Vec3.mk 1 0 0))).divideScalar
        (((Vec3.mk 0 1 0).sub (Vec3.mk 1 0 0)).cross
            ((Vec3.mk 0 0 0).sub (Vec3.mk 1 0 0))).length := by
  have hdeg : (((Vec3.mk 0 0 0).sub (Vec3.mk 0 0 0)).cross
      ((Vec3.mk 0 0 0).sub (Vec3.mk 0 0 0))).length = 0 := by
    simp [Vec3.sub, Vec3.cross, Vec3.length]
  have hnd : (((Vec3.mk 0 1 0).sub (Vec3.mk 1 0 0)).cross
      ((Vec3.mk 0 0 0).sub (Vec3.mk 1 0 0))).length ≠ 0 := by
    simp only [Vec3.sub, Vec3.cross, Vec3.length]
    norm_num
  exact ⟨hdeg, (facet_normal_spec _ _ _).1 hdeg, hnd,
    (facet_normal_spec _ _ _).2 hnd⟩

/-- Settings record of the raster filter stage, from
src/apps/app3d/types (`ImageSettings`). -/
structure ImageSettings where
  invert : Bool
  sharpen : ℝ
  blur : ℝ
  contrast : ℝ
  brightness : ℝ
  gamma : ℝ
  noiseReduction : ℝ
  grayscale : Bool

namespace ImageProcessor

/-- The contrast factor `(259 * (contrast + 255)) / (255 * (259 - contrast))`
computed once per `applyFilters` call. -/
noncomputable def contrastFactor (s : ImageSettings) : ℝ :=
  (259 * (s.contrast + 255)) / (255 * (259 - s.contrast))

/-- The final per-channel clamp `Math.max(0, Math.min(255, c))` of the
point-operation chain. -/
noncomputable def clamp255 (x : ℝ) : ℝ :=
  max 0 (min 255 x)

/-- Gamma correction of one channel:
`255 * Math.pow(c / 255, 1 / gamma)`, with `Math.pow` modelled by the
real power function. -/
noncomputable def gammaMap (gamma c : ℝ) : ℝ :=
  255 * Real.rpow (c / 255) (1 / gamma)

/-- Point-operation statement `if (grayscale) ... r = g = b = avg`:
grayscale luminance replacement on the channel triple. -/
noncomputable def pointGray (s : ImageSettings) (c : ℝ × ℝ × ℝ) : ℝ × ℝ × ℝ :=
  if s.grayscale then
    (0.299 * c.1 + 0.587 * c.2.1 + 0.114 * c.2.2,
     0.299 * c.1 + 0.587 * c.2.1 + 0.114 * c.2.2,
     0.299 * c.1 + 0.587 * c.2.1 + 0.114 * c.2.2)
  else c

/-- Point-operation statement `r += brightness` (per channel). -/
noncomputable def pointBrightness (s : ImageSettings) (c : ℝ × ℝ × ℝ) : ℝ × ℝ × ℝ :=
  (c.1 + s.brightness, c.2.1 + s.brightness, c.2.2 + s.brightness)

/-- Point-operation statement `r = factor * (r - 128) + 128` (per
channel). -/
noncomputable def pointContrast (s : ImageSettings) (c : ℝ × ℝ × ℝ) : ℝ × ℝ × ℝ :=
  (contrastFactor s * (c.1 - 128) + 128,
   contrastFactor s * (c.2.1 - 128) + 128,
   contrastFactor s * (c.2.2 - 128) + 128)

/-- Point-operation statement `if (invert) r = 255 - r` (per channel). -/
noncomputable def pointInvert (s : ImageSettings) (c : ℝ × ℝ × ℝ) : ℝ × ℝ × ℝ :=
  if s.invert then (255 - c.1, 255 - c.2.1, 255 - c.2.2) else c

/-- Point-operation statement guarded by `gamma !== 1.0 && gamma > 0`:
gamma correction per channel. -/
noncomputable def pointGamma (s : ImageSettings) (c : ℝ × ℝ × ℝ) : ℝ × ℝ × ℝ :=
  if s.gamma ≠ 1 ∧ 0 < s.gamma then
    (gammaMap s.gamma c.1, gammaMap s.gamma c.2.1, gammaMap s.gamma c.2.2)
  else c

/-- The final clamp statements `data[i] = Math.max(0, Math.min(255, r))`
on the three color channels. -/
noncomputable def pointClamp (c : ℝ × ℝ × ℝ) : ℝ × ℝ × ℝ :=
  (clamp255 c.1, clamp255 c.2.1, clamp255 c.2.2)

/-- The point-operation chain of `ImageProcessor.applyFilters` on the
three color channels of one pixel: the source's statements in source
order — grayscale replacement, brightness offset, contrast mapping,
inversion, gamma correction, then the final clamp of each channel. -/
noncomputable def applyPointOps (s : ImageSettings) (r0 g0 b0 : ℝ) : ℝ × ℝ × ℝ :=
  pointClamp (pointGamma s (pointInvert s (pointContrast s
    (pointBrightness s (pointGray s (r0, g0, b0))))))

/-- Rounding performed by a `Uint8ClampedArray` element store on a value
already clamped to [0, 255]: round half to even. -/
noncomputable def roundHalfEven (x : ℝ) : ℤ :=
  if Int.fract x = 1 / 2 then (if Even ⌊x⌋ then ⌊x⌋ else ⌊x⌋ + 1) else round x

/-- Storing a clamped channel value back into the pixel buffer. -/
noncomputable def clampedStore (x : ℝ) : ℕ :=
  (roundHalfEven x).toNat

/-- One pixel through the point-operation chain, with the three color
channels written back to the 8-bit buffer; the alpha channel is not
touched by `applyFilters`. -/
noncomputable def applyPointOpsPixel (s : ImageSettings) (p : Pixel) : Pixel :=
  let rgb := applyPointOps s p.r p.g p.b
  ⟨clampedStore rgb.1, clampedStore rgb.2.1, clampedStore rgb.2.2, p.a⟩

/-- Buffer indexing `copy[idx]` (out-of-range reads never occur on the
index sets the loops touch). -/
def pixelAt (img : List Pixel) (idx : ℕ) : Pixel :=
  img.getD idx ⟨0, 0, 0, 0⟩

/-- Median of a 9-element sample list: sort ascending (the comparator
`(a, b) => a - b`), take index 4. -/
def median9 (vals : List ℕ) : ℕ :=
  (List.insertionSort (· ≤ ·) vals).getD 4 0

/-- One pass of the 3×3 median filter of `applyFilters`: interior pixels
(1-pixel border excluded) get the per-channel median of their 3×3
neighborhood read from a snapshot of the previous pass; border pixels
and alpha are unchanged. -/
def medianPass (w h : ℕ) (img : List Pixel) : List Pixel :=
  (List.range img.length).map fun idx =>
    let x := idx % w
    let y := idx / w
    if 1 ≤ x ∧ x + 1 < w ∧ 1 ≤ y ∧ y + 1 < h then
      let nbrs := (List.range 3).flatMap fun ky =>
        (List.range 3).map fun kx =>
          pixelAt img ((y + ky - 1) * w + (x + kx - 1))
      Pixel.mk (median9 (nbrs.map Pixel.r)) (median9 (nbrs.map Pixel.g))
        (median9 (nbrs.map Pixel.b)) (pixelAt img idx).a
    else pixelAt img idx

/-- The sharpening pass of `applyFilters`: 5-point kernel with center
weight `1 + 4·amount` and axis-neighbor weight `−amount`,
`amount = sharpen / 10`, read from a pre-sharpen snapshot, edges
skipped, result clamped as `Math.min(255, Math.max(0, val))` and stored. -/
noncomputable def sharpenPass (s : ImageSettings) (w h : ℕ) (img : List Pixel) : List Pixel :=
  let amount := s.sharpen / 10
  let wCenter := 1 + 4 * amount
  let wNeighbor := -amount
  (List.range img.length).map fun idx =>
    let x := idx % w
    let y := idx / w
    if x = 0 ∨ x = w - 1 ∨ y = 0 ∨ y = h - 1 then pixelAt img idx
    else
      let conv := fun (ch : Pixel → ℕ) =>
        clampedStore (min 255 (max 0
          ((ch (pixelAt img idx) : ℝ) * wCenter +
            ((ch (pixelAt img ((y - 1) * w + x)) : ℝ) +
             (ch (pixelAt img ((y + 1) * w + x)) : ℝ) +
             (ch (pixelAt img (y * w + (x - 1))) : ℝ) +
             (ch (pixelAt img (y * w + (x + 1))) : ℝ)) * wNeighbor)))
      Pixel.mk (conv Pixel.r) (conv Pixel.g) (conv Pixel.b) (pixelAt img idx).a

/-- Stage 2 of `applyFilters`: `ceil(noiseReduction / 3)` median passes
when `noiseReduction > 0`, otherwise the buffer is untouched. -/
noncomputable def noiseStage (s : ImageSettings) (w h : ℕ) (d : List Pixel) : List Pixel :=
  if 0 < s.noiseReduction then (medianPass w h)^[(⌈s.noiseReduction / 3⌉).toNat] d else d

/-- Stage 3 of `applyFilters`: one sharpening pass when `sharpen > 0`,
otherwise the buffer is untouched. -/
noncomputable def sharpenStage (s : ImageSettings) (w h : ℕ) (d : List Pixel) : List Pixel :=
  if 0 < s.sharpen then sharpenPass s w h d else d

/-- Embedding of `ImageProcessor.applyFilters`: the per-pixel point
operations, then the median-filter stage, then the sharpening stage.
The Gaussian blur step lives in `processImage` and is delegated to the
canvas collaborator, not part of this function. -/
noncomputable def applyFilters (s : ImageSettings) (w h : ℕ) (img : List Pixel) : List Pixel :=
  sharpenStage s w h (noiseStage s w h (img.map (applyPointOpsPixel s)))

end ImageProcessor


/-- Spec-side step (refinement target for C4, following the spec text):
grayscale luminance replacement `0.299R+0.587G+0.114B` replicated to the
three channels, if enabled. -/
noncomputable def specGrayStep (s : ImageSettings) (c : ℝ × ℝ × ℝ) : ℝ × ℝ × ℝ :=
  if s.grayscale then
    (0.299 * c.1 + 0.587 * c.2.1 + 0.114 * c.2.2,
     0.299 * c.1 + 0.587 * c.2.1 + 0.114 * c.2.2,
     0.299 * c.1 + 0.587 * c.2.1 + 0.114 * c.2.2)
  else c

/-- Spec-side step: add the brightness offset to each channel. -/
noncomputable def specBrightnessStep (s : ImageSettings) (c : ℝ × ℝ × ℝ) : ℝ × ℝ × ℝ :=
  (c.1 + s.brightness, c.2.1 + s.brightness, c.2.2 + s.brightness)

/-- Spec-side step: contrast mapping `c ↦ f×(c−128)+128` with
`f = 259×(contrast+255)/(255×(259−contrast))`. -/
noncomputable def specContrastStep (s : ImageSettings) (c : ℝ × ℝ × ℝ) : ℝ × ℝ × ℝ :=
  (259 * (s.contrast + 255) / (255 * (259 - s.contrast)) * (c.1 - 128) + 128,
   259 * (s.contrast + 255) / (255 * (259 - s.contrast)) * (c.2.1 - 128) + 128,
   259 * (s.contrast + 255) / (255 * (259 - s.contrast)) * (c.2.2 - 128) + 128)

/-- Spec-side step: inversion `c ↦ 255−c`, if enabled. -/
noncomputable def specInvertStep (s : ImageSettings) (c : ℝ × ℝ × ℝ) : ℝ × ℝ × ℝ :=
  if s.invert then (255 - c.1, 255 - c.2.1, 255 - c.2.2) else c

/-- Spec-side step: gamma correction `c ↦ 255×(c/255)^(1/gamma)` when
`gamma ≠ 1` (the spec states this step under the precondition
`gamma > 0`). -/
noncomputable def specGammaStep (s : ImageSettings) (c : ℝ × ℝ × ℝ) : ℝ × ℝ × ℝ :=
  if s.gamma ≠ 1 then
    (255 * Real.rpow (c.1 / 255) (1 / s.gamma),
     255 * Real.rpow (c.2.1 / 255) (1 / s.gamma),
     255 * Real.rpow (c.2.2 / 255) (1 / s.gamma))
  else c

/-- Spec-side step: the single clamp of each channel to [0, 255] at the
very end of the chain. -/
noncomputable def specClampStep (c : ℝ × ℝ × ℝ) : ℝ × ℝ × ℝ :=
  (max 0 (min 255 c.1), max 0 (min 255 c.2.1), max 0 (min 255 c.2.2))

/-- The spec's point-operation chain, in the spec's exact order, with
unclamped intermediate values and one final clamp. -/
noncomputable def specPointChain (s : ImageSettings) (c : ℝ × ℝ × ℝ) : ℝ × ℝ × ℝ :=
  specClampStep (specGammaStep s (specInvertStep s (specContrastStep s
    (specBrightnessStep s (specGrayStep s c)))))

theorem pointGamma_eq_spec (s : ImageSettings) (c : ℝ × ℝ × ℝ)
    (hγ : 0 < s.gamma) :
    ImageProcessor.pointGamma s c = specGammaStep s c := by
  unfold ImageProcessor.pointGamma specGammaStep ImageProcessor.gammaMap
  by_cases h1 : s.gamma = 1
  · simp [h1]
  · simp [h1, hγ]

/-- C4: under the precondition `gamma > 0`, the implemented
point-operation chain of `ImageProcessor.applyFilters` computes exactly
the spec's chain — grayscale, then brightness, then contrast with factor
`259×(contrast+255)/(255×(259−contrast))`, then inversion, then gamma
correction when `gamma ≠ 1`, on unclamped intermediates, with one final
clamp per channel. -/
theorem point_ops_follow_spec_chain (s : ImageSettings) (r g b : ℝ)
    (hγ : 0 < s.gamma) :
    ImageProcessor.applyPointOps s r g b = specPointChain s (r, g, b) := by
  have hgray : ImageProcessor.pointGray s (r, g, b) = specGrayStep s (r, g, b) := rfl
  have hbr : ∀ c, ImageProcessor.pointBrightness s c = specBrightnessStep s c :=
    fun c => rfl
  have hco : ∀ c, ImageProcessor.pointContrast s c = specContrastStep s c :=
    fun c => rfl
  have hinv : ∀ c, ImageProcessor.pointInvert s c = specInvertStep s c :=
    fun c => rfl
  have hcl : ∀ c, ImageProcessor.pointClamp c = specClampStep c := fun c => rfl
  unfold ImageProcessor.applyPointOps specPointChain
  rw [hgray, hbr, hco, hinv, pointGamma_eq_spec s _ hγ, hcl]

/-- Concrete instantiation of `point_ops_follow_spec_chain` with all
effects active and `gamma = 2`. -/
theorem point_ops_follow_spec_chain_witness :
    0 < (ImageSettings.mk true 0 0 10 5 2 0 true).gamma ∧
    ImageProcessor.applyPointOps (ImageSettings.mk true 0 0 10 5 2 0 true) 100 50 25 =
      specPointChain (ImageSettings.mk true 0 0 10 5 2 0 true) (100, 50, 25) :=
  ⟨by norm_num, point_ops_follow_spec_chain _ 100 50 25 (by norm_num)⟩

theorem roundHalfEven_natCast (n : ℕ) :
    ImageProcessor.roundHalfEven (n : ℝ) = n := by
  unfold ImageProcessor.roundHalfEven
  rw [if_neg, round_natCast]
  rw [Int.fract_natCast]
  norm_num

theorem clampedStore_natCast (n : ℕ) :
    ImageProcessor.clampedStore (n : ℝ) = n := by
  unfold ImageProcessor.clampedStore
  rw [roundHalfEven_natCast]
  exact Int.toNat_natCast n

theorem applyPointOps_disabled (s : ImageSettings)
    (hgray : s.grayscale = false) (hinv : s.invert = false)
    (hbr : s.brightness = 0) (hco : s.contrast = 0) (hga : s.gamma = 1)
    (r g b : ℝ) (hr0 : 0 ≤ r) (hr1 : r ≤ 255) (hg0 : 0 ≤ g) (hg1 : g ≤ 255)
    (hb0 : 0 ≤ b) (hb1 : b ≤ 255) :
    ImageProcessor.applyPointOps s r g b = (r, g, b) := by
  have h1 : ImageProcessor.pointGray s (r, g, b) = (r, g, b) := by
    unfold ImageProcessor.pointGray
    rw [hgray]
    simp
  have h2 : ImageProcessor.pointBrightness s (r, g, b) = (r, g, b) := by
    unfold ImageProcessor.pointBrightness
    rw [hbr]
    simp
  have h3 : ImageProcessor.pointContrast s (r, g, b) = (r, g, b) := by
    unfold ImageProcessor.pointContrast ImageProcessor.contrastFactor
    rw [hco]
    norm_num
  have h4 : ImageProcessor.pointInvert s (r, g, b) = (r, g, b) := by
    unfold ImageProcessor.pointInvert
    rw [hinv]
    simp
  have h5 : ImageProcessor.pointGamma s (r, g, b) = (r, g, b) := by
    unfold ImageProcessor.pointGamma
    rw [hga]
    simp
  have h6 : ImageProcessor.pointClamp (r, g, b) = (r, g, b) := by
    unfold ImageProcessor.pointClamp ImageProcessor.clamp255
    rw [min_eq_right hr1, max_eq_right hr0, min_eq_right hg1,
      max_eq_right hg0, min_eq_right hb1, max_eq_right hb0]
  unfold ImageProcessor.applyPointOps
  rw [h1, h2, h3, h4, h5, h6]

theorem applyPointOpsPixel_disabled (s : ImageSettings)
    (hgray : s.grayscale = false) (hinv : s.invert = false)
    (hbr : s.brightness = 0) (hco : s.contrast = 0) (hga : s.gamma = 1)
    (p : Pixel) (hp : p.r ≤ 255 ∧ p.g ≤ 255 ∧ p.b ≤ 255) :
    ImageProcessor.applyPointOpsPixel s p = p := by
  unfold ImageProcessor.applyPointOpsPixel
  rw [applyPointOps_disabled s hgray hinv hbr hco hga (p.r : ℝ) (p.g : ℝ) (p.b : ℝ)
    (Nat.cast_nonneg _) (by exact_mod_cast hp.1) (Nat.cast_nonneg _)
    (by exact_mod_cast hp.2.1) (Nat.cast_nonneg _) (by exact_mod_cast hp.2.2)]
  simp only [clampedStore_natCast]

/-- C7: with every effect disabled (`grayscale = false`,
`invert = false`, `brightness = 0`, `contrast = 0`, `gamma = 1`,
`blur = 0`, `sharpen = 0`, `noiseReduction = 0`), the filter chain of
the raster filter stage is the identity on the (possibly resized) pixel
buffer. -/
theorem filters_disabled_identity (s : ImageSettings) (w h : ℕ)
    (img : List Pixel)
    (hgray : s.grayscale = false) (hinv : s.invert = false)
    (hbr : s.brightness = 0) (hco : s.contrast = 0) (hga : s.gamma = 1)
    (hbl : s.blur = 0) (hsh : s.sharpen = 0) (hnr : s.noiseReduction = 0)
    (hleg : ∀ p ∈ img, p.r ≤ 255 ∧ p.g ≤ 255 ∧ p.b ≤ 255) :
    ImageProcessor.applyFilters s w h img = img := by
  unfold ImageProcessor.applyFilters ImageProcessor.sharpenStage
    ImageProcessor.noiseStage
  rw [if_neg (by rw [hsh]; exact lt_irrefl 0),
    if_neg (by rw [hnr]; exact lt_irrefl 0)]
  have hpix : ∀ p ∈ img, ImageProcessor.applyPointOpsPixel s p = p :=
    fun p hp => applyPointOpsPixel_disabled s hgray hinv hbr hco hga p (hleg p hp)
  rw [List.map_congr_left hpix]
  exact List.map_id' img

/-- Concrete instantiation of `filters_disabled_identity` on a
one-pixel buffer with the all-disabled settings record. -/
theorem filters_disabled_identity_witness :
    (ImageSettings.mk false 0 0 0 0 1 0 false).grayscale = false ∧
    (ImageSettings.mk false 0 0 0 0 1 0 false).brightness = 0 ∧
    (∀ p ∈ [Pixel.mk 1 2 3 4], p.r ≤ 255 ∧ p.g ≤ 255 ∧ p.b ≤ 255) ∧
    ImageProcessor.applyFilters (ImageSettings.mk false 0 0 0 0 1 0 false) 1 1
      [Pixel.mk 1 2 3 4] = [Pixel.mk 1 2 3 4] :=
  ⟨rfl, rfl, by decide,
    filters_disabled_identity (ImageSettings.mk false 0 0 0 0 1 0 false) 1 1
      [Pixel.mk 1 2 3 4] rfl rfl rfl rfl rfl rfl rfl rfl (by decide)⟩

/-- Settings record of the relief mesh builder, from
src/apps/app3d/types (`ModelSettings`); restricted to the fields
`generateMesh` reads (`segmentation`, `showWireframe`, `materialColor`
and `resolution` are never used by the mesh builder). -/
structure ModelSettings where
  width : ℝ
  height : ℝ
  depth : ℝ
  baseHeight : ℝ
  smoothing : Bool
  smoothingIterations : ℕ
  frameWidth : ℝ
  frameDepth : ℝ
  curveAngle : ℝ

namespace GeometryGenerator

/-- Statement `totalWidth = width + (frameWidth * 2)`. -/
noncomputable def totalWidth (s : ModelSettings) : ℝ :=
  s.width + s.frameWidth * 2

/-- Statement `totalHeight = height + (frameWidth * 2)`. -/
noncomputable def totalHeight (s : ModelSettings) : ℝ :=
  s.height + s.frameWidth * 2

/-- Statement `pxPerMmX = widthPx / width`. -/
noncomputable def pxPerMmX (s : ModelSettings) (widthPx : ℕ) : ℝ :=
  widthPx / s.width

/-- Statement `pxPerMmY = heightPx / height`. -/
noncomputable def pxPerMmY (s : ModelSettings) (heightPx : ℕ) : ℝ :=
  heightPx / s.height

/-- JavaScript `Math.round` on a finite number: `⌊x + 1/2⌋`. -/
noncomputable def jsRound (x : ℝ) : ℤ :=
  ⌊x + 1 / 2⌋

/-- JavaScript `r || 1` on an integer: 1 exactly when `r` is zero. -/
def jsOrOne (r : ℤ) : ℤ :=
  if r = 0 then 1 else r

/-- Statement `frameSegsX = Math.round(frameWidth * pxPerMmX) || 1`. -/
noncomputable def frameSegsX (s : ModelSettings) (widthPx : ℕ) : ℤ :=
  jsOrOne (jsRound (s.frameWidth * pxPerMmX s widthPx))

/-- Statement `frameSegsY = Math.round(frameWidth * pxPerMmY) || 1`. -/
noncomputable def frameSegsY (s : ModelSettings) (heightPx : ℕ) : ℤ :=
  jsOrOne (jsRound (s.frameWidth * pxPerMmY s heightPx))

/-- Statement `totalSegsX = widthPx + (frameSegsX * 2)`. -/
noncomputable def totalSegsX (s : ModelSettings) (widthPx : ℕ) : ℤ :=
  widthPx + 2 * frameSegsX s widthPx

/-- Statement `totalSegsY = heightPx + (frameSegsY * 2)`. -/
noncomputable def totalSegsY (s : ModelSettings) (heightPx : ℕ) : ℤ :=
  heightPx + 2 * frameSegsY s heightPx

/-- One cell of the 3×3 box blur of the smoothing pass: the average of
the in-bounds neighbors of `(x, y)` read from the snapshot `f` of the
previous pass. -/
noncomputable def boxBlurAt (w h : ℕ) (f : ℕ → ℝ) (x y : ℕ) : ℝ :=
  ((((List.range 3).flatMap fun ky => (List.range 3).map fun kx =>
      ((x : ℤ) + kx - 1, (y : ℤ) + ky - 1)).filter fun c =>
        0 ≤ c.1 ∧ c.1 < (w : ℤ) ∧ 0 ≤ c.2 ∧ c.2 < (h : ℤ)).map fun c =>
          f (c.2.toNat * w + c.1.toNat)).sum /
  ((((List.range 3).flatMap fun ky => (List.range 3).map fun kx =>
      ((x : ℤ) + kx - 1, (y : ℤ) + ky - 1)).filter fun c =>
        0 ≤ c.1 ∧ c.1 < (w : ℤ) ∧ 0 ≤ c.2 ∧ c.2 < (h : ℤ)).length : ℝ)

/-- One smoothing pass over the flat heightmap buffer of `w*h` entries. -/
noncomputable def smoothPass (w h : ℕ) (f : ℕ → ℝ) : ℕ → ℝ :=
  fun idx => if idx < w * h then boxBlurAt w h f (idx % w) (idx / w) else f idx

/-- Statement block `if (settings.smoothing && settings.smoothingIterations > 0)`:
the heightmap actually sampled by the vertex loop. -/
noncomputable def finalHeightmap (s : ModelSettings) (w h : ℕ) (hm : ℕ → ℝ) : ℕ → ℝ :=
  if s.smoothing = true ∧ 0 < s.smoothingIterations then
    (smoothPass w h)^[s.smoothingIterations] hm
  else hm

/-- Statement `imgX = x - frameSegsX`. -/
noncomputable def imgX (s : ModelSettings) (w : ℕ) (x : ℕ) : ℤ :=
  (x : ℤ) - frameSegsX s w

/-- Statement `imgY = y - frameSegsY`. -/
noncomputable def imgY (s : ModelSettings) (h : ℕ) (y : ℕ) : ℤ :=
  (y : ℤ) - frameSegsY s h

/-- Statement `sx = Math.min(imgX, widthPx - 1)`. -/
noncomputable def sampleX (s : ModelSettings) (w : ℕ) (x : ℕ) : ℤ :=
  min (imgX s w x) ((w : ℤ) - 1)

/-- Statement `sy = Math.min(imgY, heightPx - 1)`. -/
noncomputable def sampleY (s : ModelSettings) (h : ℕ) (y : ℕ) : ℤ :=
  min (imgY s h y) ((h : ℤ) - 1)

/-- The per-vertex height `zVal` of `generateMesh`, including the
(unreachable) inner safety branch of the source: inside the image region
the clamped-nearest heightmap sample scaled by `depth` over
`baseHeight`, in the frame region `baseHeight + frameDepth`. -/
noncomputable def zVal (s : ModelSettings) (w h : ℕ) (hm : ℕ → ℝ) (x y : ℕ) : ℝ :=
  if 0 ≤ imgX s w x ∧ imgX s w x ≤ (w : ℤ) ∧ 0 ≤ imgY s h y ∧ imgY s h y ≤ (h : ℤ) then
    (if 0 < s.frameWidth ∧ (imgX s w x < 0 ∨ (w : ℤ) < imgX s w x ∨
        imgY s h y < 0 ∨ (h : ℤ) < imgY s h y) then
      s.baseHeight + s.frameDepth
    else
      s.baseHeight + hm ((sampleY s h y).toNat * w + (sampleX s w x).toNat) * s.depth)
  else
    s.baseHeight + s.frameDepth

/-- Statement `xOffset = -totalWidth / 2`. -/
noncomputable def xOffset (s : ModelSettings) : ℝ :=
  -totalWidth s / 2

/-- Statement `yOffset = -totalHeight / 2`. -/
noncomputable def yOffset (s : ModelSettings) : ℝ :=
  -totalHeight s / 2

/-- Statement `dx = totalWidth / totalSegsX`. -/
noncomputable def dx (s : ModelSettings) (w : ℕ) : ℝ :=
  totalWidth s / (totalSegsX s w : ℝ)

/-- Statement `dy = totalHeight / totalSegsY`. -/
noncomputable def dy (s : ModelSettings) (h : ℕ) : ℝ :=
  totalHeight s / (totalSegsY s h : ℝ)

/-- Statement `xFlat = xOffset + (x * dx)`. -/
noncomputable def xFlat (s : ModelSettings) (w : ℕ) (x : ℕ) : ℝ :=
  xOffset s + x * dx s w

/-- Statement `yFlat = yOffset + (totalSegsY - y) * dy` (Y flip). -/
noncomputable def yFlat (s : ModelSettings) (h : ℕ) (y : ℕ) : ℝ :=
  yOffset s + ((totalSegsY s h : ℝ) - y) * dy s h

/-- Statement `thetaTotal = (curveAngle * Math.PI) / 180`. -/
noncomputable def thetaTotal (s : ModelSettings) : ℝ :=
  s.curveAngle * Real.pi / 180

/-- Statement `radius = isCurved ? totalWidth / thetaTotal : 0`. -/
noncomputable def radius (s : ModelSettings) (w : ℕ) : ℝ :=
  if 0 < s.curveAngle then totalWidth s / thetaTotal s else 0

/-- Statement `angle = (xFlat / totalWidth) * thetaTotal`. -/
noncomputable def vertexAngle (s : ModelSettings) (w : ℕ) (x : ℕ) : ℝ :=
  xFlat s w x / totalWidth s * thetaTotal s

/-- The top-surface vertex pushed for grid point `(x, y)`: curved with
radius `radius + zVal` and recentered by `−radius`, or flat at
`(xFlat, yFlat, zVal)`. -/
noncomputable def topVertex (s : ModelSettings) (w h : ℕ) (hm : ℕ → ℝ) (x y : ℕ) :
    ℝ × ℝ × ℝ :=
  if 0 < s.curveAngle then
    ((radius s w + zVal s w h hm x y) * Real.sin (vertexAngle s w x),
     yFlat s h y,
     (radius s w + zVal s w h hm x y) * Real.cos (vertexAngle s w x) - radius s w)
  else
    (xFlat s w x, yFlat s h y, zVal s w h hm x y)

/-- The bottom-surface vertex pushed for grid point `(x, y)`: curved on
the base shell of radius `radius` and recentered by `−radius`, or flat
at `(xFlat, yFlat, 0)`. -/
noncomputable def botVertex (s : ModelSettings) (w h : ℕ) (x y : ℕ) : ℝ × ℝ × ℝ :=
  if 0 < s.curveAngle then
    (radius s w * Real.sin (vertexAngle s w x),
     yFlat s h y,
     radius s w * Real.cos (vertexAngle s w x) - radius s w)
  else
    (xFlat s w x, yFlat s h y, 0)

/-- Index of the top vertex of grid point `(x, y)` in the vertex buffer:
the vertex loop pushes top then bottom for each grid point, rows outer,
so `topGrid[y * (totalSegsX+1) + x] = 2 * (y * (totalSegsX+1) + x)`. -/
def topIdx (SX x y : ℕ) : ℕ :=
  2 * (y * (SX + 1) + x)

/-- Index of the bottom vertex of grid point `(x, y)` in the vertex
buffer (pushed immediately after the top vertex). -/
def botIdx (SX x y : ℕ) : ℕ :=
  2 * (y * (SX + 1) + x) + 1

/-- The index stream emitted for grid cell `(x, y)`: two top triangles,
two bottom triangles (reverse winding), and two wall triangles per
touched boundary edge (left `x=0`, right `x=totalSegsX-1`, top `y=0`,
bottom `y=totalSegsY-1`), exactly in source push order. -/
def cellIndices (SX SY x y : ℕ) : List ℕ :=
  [topIdx SX x y, topIdx SX (x + 1) y, topIdx SX (x + 1) (y + 1),
   topIdx SX x y, topIdx SX (x + 1) (y + 1), topIdx SX x (y + 1),
   botIdx SX x y, botIdx SX (x + 1) (y + 1), botIdx SX (x + 1) y,
   botIdx SX x y, botIdx SX x (y + 1), botIdx SX (x + 1) (y + 1)] ++
  (if x = 0 then
    [botIdx SX x y, topIdx SX x y, topIdx SX x (y + 1),
     botIdx SX x y, topIdx SX x (y + 1), botIdx SX x (y + 1)] else []) ++
  (if x = SX - 1 then
    [botIdx SX (x + 1) y, topIdx SX (x + 1) (y + 1), topIdx SX (x + 1) y,
     botIdx SX (x + 1) y, botIdx SX (x + 1) (y + 1), topIdx SX (x + 1) (y + 1)] else []) ++
  (if y = 0 then
    [botIdx SX x y, topIdx SX (x + 1) y, topIdx SX x y,
     botIdx SX x y, botIdx SX (x + 1) y, topIdx SX (x + 1) y] else []) ++
  (if y = SY - 1 then
    [botIdx SX x (y + 1), topIdx SX x (y + 1), topIdx SX (x + 1) (y + 1),
     botIdx SX x (y + 1), topIdx SX (x + 1) (y + 1), botIdx SX (x + 1) (y + 1)] else [])

/-- The full index stream of the face loop of `generateMesh`, cells in
row-major order over `[0, totalSegsY) × [0, totalSegsX)`. -/
def meshIndices (SX SY : ℕ) : List ℕ :=
  (List.range SY).flatMap fun y => (List.range SX).flatMap fun x => cellIndices SX SY x y

/-- Number of triangles of the generated mesh for given grid segment
counts: one triangle per three indices. -/
def triangleCount (SX SY : ℕ) : ℕ :=
  (meshIndices SX SY).length / 3

/-- Number of triangles `generateMesh` emits for the given settings and
image pixel dimensions. -/
noncomputable def generatedTriangleCount (s : ModelSettings) (w h : ℕ) : ℕ :=
  triangleCount (totalSegsX s w).toNat (totalSegsY s h).toNat

end GeometryGenerator

theorem sum_map_range (f : ℕ → ℕ) (n : ℕ) :
    ((List.range n).map f).sum = ∑ i in Finset.range n, f i := by
  induction n with
  | zero => simp
  | succ n ih =>
      rw [List.range_succ, Finset.sum_range_succ]
      simp [ih]

theorem cellIndices_length (SX SY x y : ℕ) :
    (GeometryGenerator.cellIndices SX SY x y).length =
      12 + (if x = 0 then 6 else 0) + (if x = SX - 1 then 6 else 0) +
        (if y = 0 then 6 else 0) + (if y = SY - 1 then 6 else 0) := by
  simp only [GeometryGenerator.cellIndices, List.length_append,
    apply_ite List.length, List.length_cons, List.length_nil]

theorem row_indices_length (SX SY y : ℕ) (hSX : 1 ≤ SX) :
    ((List.range SX).flatMap fun x => GeometryGenerator.cellIndices SX SY x y).length =
      12 * SX + 12 + (if y = 0 then 6 * SX else 0) +
        (if y = SY - 1 then 6 * SX else 0) := by
  rw [List.length_flatMap, sum_map_range]
  simp only [Function.comp, cellIndices_length]
  rw [Finset.sum_add_distrib, Finset.sum_add_distrib, Finset.sum_add_distrib,
    Finset.sum_add_distrib]
  rw [Finset.sum_const, Finset.sum_const, Finset.sum_const, Finset.card_range,
    smul_eq_mul, smul_eq_mul, smul_eq_mul]
  rw [Finset.sum_ite_eq' (Finset.range SX) 0 (fun _ => 6),
    Finset.sum_ite_eq' (Finset.range SX) (SX - 1) (fun _ => 6)]
  rw [if_pos (Finset.mem_range.mpr (by omega)),
    if_pos (Finset.mem_range.mpr (by omega))]
  split_ifs <;> ring

theorem meshIndices_length (SX SY : ℕ) (hSX : 1 ≤ SX) (hSY : 1 ≤ SY) :
    (GeometryGenerator.meshIndices SX SY).length =
      12 * (SX * SY) + 12 * SX + 12 * SY := by
  unfold GeometryGenerator.meshIndices
  rw [List.length_flatMap, sum_map_range]
  simp only [Function.comp]
  have hrow : ∀ y ∈ Finset.range SY,
      ((List.range SX).flatMap fun x => GeometryGenerator.cellIndices SX SY x y).length =
        12 * SX + 12 + (if y = 0 then 6 * SX else 0) +
          (if y = SY - 1 then 6 * SX else 0) :=
    fun y _ => row_indices_length SX SY y hSX
  rw [Finset.sum_congr rfl hrow]
  rw [Finset.sum_add_distrib, Finset.sum_add_distrib]
  rw [Finset.sum_const, Finset.card_range, smul_eq_mul]
  rw [Finset.sum_ite_eq' (Finset.range SY) 0 (fun _ => 6 * SX),
    Finset.sum_ite_eq' (Finset.range SY) (SY - 1) (fun _ => 6 * SX)]
  rw [if_pos (Finset.mem_range.mpr (by omega)),
    if_pos (Finset.mem_range.mpr (by omega))]
  ring

theorem triangleCount_formula (SX SY : ℕ) (hSX : 1 ≤ SX) (hSY : 1 ≤ SY) :
    GeometryGenerator.triangleCount SX SY = 4 * (SX * SY) + 4 * SX + 4 * SY := by
  unfold GeometryGenerator.triangleCount
  rw [meshIndices_length SX SY hSX hSY]
  omega

theorem floor_half : ⌊(1 / 2 : ℝ)⌋ = 0 := by
  rw [Int.floor_eq_iff]
  constructor <;> norm_num

theorem jsOrOne_pos (r : ℤ) (hr : 0 ≤ r) : 1 ≤ GeometryGenerator.jsOrOne r := by
  unfold GeometryGenerator.jsOrOne
  split <;> omega

theorem jsOrOne_eq_max (r : ℤ) (hr : 0 ≤ r) :
    GeometryGenerator.jsOrOne r = max r 1 := by
  unfold GeometryGenerator.jsOrOne
  split <;> omega

theorem frameSegsX_of_zero (s : ModelSettings) (w : ℕ) (hf : s.frameWidth = 0) :
    GeometryGenerator.frameSegsX s w = 1 := by
  unfold GeometryGenerator.frameSegsX GeometryGenerator.jsRound
    GeometryGenerator.pxPerMmX
  rw [hf, zero_mul, zero_add, floor_half]
  rfl

theorem frameSegsY_of_zero (s : ModelSettings) (h : ℕ) (hf : s.frameWidth = 0) :
    GeometryGenerator.frameSegsY s h = 1 := by
  unfold GeometryGenerator.frameSegsY GeometryGenerator.jsRound
    GeometryGenerator.pxPerMmY
  rw [hf, zero_mul, zero_add, floor_half]
  rfl

theorem jsRoundX_nonneg (s : ModelSettings) (w : ℕ) (hf : 0 ≤ s.frameWidth)
    (hw : 0 < s.width) :
    0 ≤ GeometryGenerator.jsRound (s.frameWidth * GeometryGenerator.pxPerMmX s w) := by
  unfold GeometryGenerator.jsRound GeometryGenerator.pxPerMmX
  have hp : (0 : ℝ) ≤ s.frameWidth * ((w : ℝ) / s.width) :=
    mul_nonneg hf (div_nonneg (Nat.cast_nonneg w) hw.le)
  exact Int.floor_nonneg.mpr (by linarith)

theorem jsRoundY_nonneg (s : ModelSettings) (h : ℕ) (hf : 0 ≤ s.frameWidth)
    (hh : 0 < s.height) :
    0 ≤ GeometryGenerator.jsRound (s.frameWidth * GeometryGenerator.pxPerMmY s h) := by
  unfold GeometryGenerator.jsRound GeometryGenerator.pxPerMmY
  have hp : (0 : ℝ) ≤ s.frameWidth * ((h : ℝ) / s.height) :=
    mul_nonneg hf (div_nonneg (Nat.cast_nonneg h) hh.le)
  exact Int.floor_nonneg.mpr (by linarith)

/-- C10: the frame segment count per axis is
`max(round(frameWidth*pxPerMm), 1)` — in particular 1, not 0, when
`frameWidth = 0` — the grid spans `pixelDimension + 2*frameSegs`
segments per axis, and every vertex of the outermost grid ring gets
height `baseHeight + frameDepth`. -/
theorem frame_segments_and_outer_ring (s : ModelSettings) (w h : ℕ)
    (hm : ℕ → ℝ) (x y : ℕ)
    (hf : 0 ≤ s.frameWidth) (hw : 0 < s.width) (hh : 0 < s.height) :
    GeometryGenerator.frameSegsX s w =
      max (GeometryGenerator.jsRound (s.frameWidth * GeometryGenerator.pxPerMmX s w)) 1 ∧
    GeometryGenerator.frameSegsY s h =
      max (GeometryGenerator.jsRound (s.frameWidth * GeometryGenerator.pxPerMmY s h)) 1 ∧
    GeometryGenerator.totalSegsX s w = w + 2 * GeometryGenerator.frameSegsX s w ∧
    GeometryGenerator.totalSegsY s h = h + 2 * GeometryGenerator.frameSegsY s h ∧
    ((x = 0 ∨ x = (GeometryGenerator.totalSegsX s w).toNat ∨
      y = 0 ∨ y = (GeometryGenerator.totalSegsY s h).toNat) →
      GeometryGenerator.zVal s w h hm x y = s.baseHeight + s.frameDepth) := by
  have hrx := jsRoundX_nonneg s w hf hw
  have hry := jsRoundY_nonneg s h hf hh
  have hfsx : 1 ≤ GeometryGenerator.frameSegsX s w := jsOrOne_pos _ hrx
  have hfsy : 1 ≤ GeometryGenerator.frameSegsY s h := jsOrOne_pos _ hry
  have htx : 0 ≤ GeometryGenerator.totalSegsX s w := by
    unfold GeometryGenerator.totalSegsX
    omega
  have hty : 0 ≤ GeometryGenerator.totalSegsY s h := by
    unfold GeometryGenerator.totalSegsY
    omega
  refine ⟨jsOrOne_eq_max _ hrx, jsOrOne_eq_max _ hry, rfl, rfl, ?_⟩
  intro hcase
  unfold GeometryGenerator.zVal
  rw [if_neg]
  rcases hcase with rfl | rfl | rfl | rfl
  · unfold GeometryGenerator.imgX
    intro hcon
    have h1 := hcon.1
    push_cast at h1
    omega
  · unfold GeometryGenerator.imgX GeometryGenerator.totalSegsX
    intro hcon
    have h2 := hcon.2.1
    have hc : ((((w : ℤ) + 2 * GeometryGenerator.frameSegsX s w).toNat : ℕ) : ℤ) =
        (w : ℤ) + 2 * GeometryGenerator.frameSegsX s w := by
      rw [Int.toNat_of_nonneg]
      unfold GeometryGenerator.totalSegsX at htx
      exact htx
    rw [hc] at h2
    omega
  · unfold GeometryGenerator.imgY
    intro hcon
    have h3 := hcon.2.2.1
    push_cast at h3
    omega
  · unfold GeometryGenerator.imgY GeometryGenerator.totalSegsY
    intro hcon
    have h4 := hcon.2.2.2
    have hc : ((((h : ℤ) + 2 * GeometryGenerator.frameSegsY s h).toNat : ℕ) : ℤ) =
        (h : ℤ) + 2 * GeometryGenerator.frameSegsY s h := by
      rw [Int.toNat_of_nonneg]
      unfold GeometryGenerator.totalSegsY at hty
      exact hty
    rw [hc] at h4
    omega

/-- Concrete instantiation of `frame_segments_and_outer_ring` with a
2 mm frame on a 10×10 px, 10×10 mm model: the left-edge vertex column
x = 0 gets the frame height. -/
theorem frame_segments_and_outer_ring_witness :
    (0 : ℝ) ≤ (ModelSettings.mk 10 10 1 0 false 0 2 1 0).frameWidth ∧
    (0 : ℝ) < (ModelSettings.mk 10 10 1 0 false 0 2 1 0).width ∧
    GeometryGenerator.frameSegsX (ModelSettings.mk 10 10 1 0 false 0 2 1 0) 10 =
      max (GeometryGenerator.jsRound
        ((ModelSettings.mk 10 10 1 0 false 0 2 1 0).frameWidth *
          GeometryGenerator.pxPerMmX (ModelSettings.mk 10 10 1 0 false 0 2 1 0) 10)) 1 ∧
    GeometryGenerator.zVal (ModelSettings.mk 10 10 1 0 false 0 2 1 0) 10 10
        (fun _ => 0) 0 1 =
      (ModelSettings.mk 10 10 1 0 false 0 2 1 0).baseHeight +
        (ModelSettings.mk 10 10 1 0 false 0 2 1 0).frameDepth := by
  have h := frame_segments_and_outer_ring (ModelSettings.mk 10 10 1 0 false 0 2 1 0)
    10 10 (fun _ => 0) 0 1 (by norm_num) (by norm_num) (by norm_num)
  exact ⟨by norm_num, by norm_num, h.1, h.2.2.2.2 (Or.inl rfl)⟩

/-- Euclidean distance of a point from the cylinder axis — the vertical
line `x = 0, z = -radius` (the curved surface is recentered by
`-radius`, so the axis sits at `z = -radius`). -/
noncomputable def axisDist (s : ModelSettings) (w : ℕ) (p : ℝ × ℝ × ℝ) : ℝ :=
  Real.sqrt (p.1 ^ 2 + (p.2.2 + GeometryGenerator.radius s w) ^ 2)

/-- C2: for `curveAngle > 0` (and nonnegative heights), every top
vertex generated by `generateMesh` lies at distance exactly
`radius + zVal` from the cylinder axis, and every bottom vertex at
distance exactly `radius`, where `radius = totalWidth / thetaTotal`. -/
theorem curved_vertex_axis_distance (s : ModelSettings) (w h : ℕ)
    (hm : ℕ → ℝ) (x y : ℕ)
    (hc : 0 < s.curveAngle) (hW : 0 < s.width) (hF : 0 ≤ s.frameWidth)
    (hB : 0 ≤ s.baseHeight) (hD : 0 ≤ s.depth) (hFD : 0 ≤ s.frameDepth)
    (hhm : ∀ i, 0 ≤ hm i) :
    axisDist s w (GeometryGenerator.topVertex s w h hm x y) =
      GeometryGenerator.radius s w + GeometryGenerator.zVal s w h hm x y ∧
    axisDist s w (GeometryGenerator.botVertex s w h x y) =
      GeometryGenerator.radius s w := by
  have hθ : 0 < GeometryGenerator.thetaTotal s := by
    unfold GeometryGenerator.thetaTotal
    exact div_pos (mul_pos hc Real.pi_pos) (by norm_num)
  have htw : 0 < GeometryGenerator.totalWidth s := by
    unfold GeometryGenerator.totalWidth
    linarith
  have hR : 0 < GeometryGenerator.radius s w := by
    unfold GeometryGenerator.radius
    rw [if_pos hc]
    exact div_pos htw hθ
  have hz : 0 ≤ GeometryGenerator.zVal s w h hm x y := by
    unfold GeometryGenerator.zVal
    split
    · split
      · linarith
      · have h0 := hhm ((GeometryGenerator.sampleY s h y).toNat * w +
          (GeometryGenerator.sampleX s w x).toNat)
        have hp := mul_nonneg h0 hD
        linarith
    · linarith
  constructor
  · unfold axisDist GeometryGenerator.topVertex
    rw [if_pos hc]
    dsimp only
    have hkey : ((GeometryGenerator.radius s w + GeometryGenerator.zVal s w h hm x y) *
          Real.sin (GeometryGenerator.vertexAngle s w x)) ^ 2 +
        ((GeometryGenerator.radius s w + GeometryGenerator.zVal s w h hm x y) *
            Real.cos (GeometryGenerator.vertexAngle s w x) -
          GeometryGenerator.radius s w + GeometryGenerator.radius s w) ^ 2 =
        (GeometryGenerator.radius s w + GeometryGenerator.zVal s w h hm x y) ^ 2 := by
      have hsc := Real.sin_sq_add_cos_sq (GeometryGenerator.vertexAngle s w x)
      nlinarith [hsc]
    rw [hkey]
    exact Real.sqrt_sq (by linarith)
  · unfold axisDist GeometryGenerator.botVertex
    rw [if_pos hc]
    dsimp only
    have hkey : (GeometryGenerator.radius s w *
          Real.sin (GeometryGenerator.vertexAngle s w x)) ^ 2 +
        (GeometryGenerator.radius s w *
            Real.cos (GeometryGenerator.vertexAngle s w x) -
          GeometryGenerator.radius s w + GeometryGenerator.radius s w) ^ 2 =
        GeometryGenerator.radius s w ^ 2 := by
      have hsc := Real.sin_sq_add_cos_sq (GeometryGenerator.vertexAngle s w x)
      nlinarith [hsc]
    rw [hkey]
    exact Real.sqrt_sq (by linarith)

/-- Concrete instantiation of `curved_vertex_axis_distance`: a 1×1 px
image on a 1×1 mm model, curved by 180 degrees, zero heightmap, grid
vertex (0, 0). -/
theorem curved_vertex_axis_distance_witness :
    (0 : ℝ) < (ModelSettings.mk 1 1 1 0 false 0 0 0 180).curveAngle ∧
    (0 : ℝ) < (ModelSettings.mk 1 1 1 0 false 0 0 0 180).width ∧
    (∀ i : ℕ, (0 : ℝ) ≤ (fun _ : ℕ => (0 : ℝ)) i) ∧
    axisDist (ModelSettings.mk 1 1 1 0 false 0 0 0 180) 1
        (GeometryGenerator.topVertex (ModelSettings.mk 1 1 1 0 false 0 0 0 180) 1 1
          (fun _ => 0) 0 0) =
      GeometryGenerator.radius (ModelSettings.mk 1 1 1 0 false 0 0 0 180) 1 +
        GeometryGenerator.zVal (ModelSettings.mk 1 1 1 0 false 0 0 0 180) 1 1
          (fun _ => 0) 0 0 ∧
    axisDist (ModelSettings.mk 1 1 1 0 false 0 0 0 180) 1
        (GeometryGenerator.botVertex (ModelSettings.mk 1 1 1 0 false 0 0 0 180) 1 1 0 0) =
      GeometryGenerator.radius (ModelSettings.mk 1 1 1 0 false 0 0 0 180) 1 := by
  have h := curved_vertex_axis_distance (ModelSettings.mk 1 1 1 0 false 0 0 0 180)
    1 1 (fun _ => 0) 0 0 (by norm_num) (by norm_num) (by norm_num) (by norm_num)
    (by norm_num) (by norm_num) (fun i => le_refl 0)
  exact ⟨by norm_num, by norm_num, fun i => le_refl 0, h.1, h.2⟩


/-- C1 (amended): with `curveAngle = 0` and `frameWidth = 0` the frame
segment count is still 1 per axis side (`round(0*pxPerMm) || 1 = 1`),
so the grid spans `(W+2)×(H+2)` cells. Top vertices whose grid position
lies in the image region (`1 ≤ x ≤ W+1`, `1 ≤ y ≤ H+1`) sit at
`Z = baseHeight + heightmapValue*depth` (clamped nearest sampling);
the outermost ring sits at `Z = baseHeight + frameDepth`; every bottom
vertex sits at `Z = 0`; and the mesh has `4*(W+2)*(H+2)` top/bottom
triangles plus `4*((W+2)+(H+2))` wall triangles. -/
theorem relief_flat_noframe (s : ModelSettings) (w h : ℕ) (hm : ℕ → ℝ) (x y : ℕ)
    (hc : s.curveAngle = 0) (hf : s.frameWidth = 0) (hw1 : 1 ≤ w) (hh1 : 1 ≤ h) :
    GeometryGenerator.frameSegsX s w = 1 ∧
    GeometryGenerator.frameSegsY s h = 1 ∧
    (GeometryGenerator.totalSegsX s w).toNat = w + 2 ∧
    (GeometryGenerator.totalSegsY s h).toNat = h + 2 ∧
    (1 ≤ x → x ≤ w + 1 → 1 ≤ y → y ≤ h + 1 →
      (GeometryGenerator.topVertex s w h hm x y).2.2 =
        s.baseHeight + hm (min (y - 1) (h - 1) * w + min (x - 1) (w - 1)) * s.depth) ∧
    ((x = 0 ∨ x = w + 2 ∨ y = 0 ∨ y = h + 2) →
      (GeometryGenerator.topVertex s w h hm x y).2.2 = s.baseHeight + s.frameDepth) ∧
    (GeometryGenerator.botVertex s w h x y).2.2 = 0 ∧
    GeometryGenerator.generatedTriangleCount s w h =
      4 * ((w + 2) * (h + 2)) + 4 * (w + 2) + 4 * (h + 2) := by
  have hfsx : GeometryGenerator.frameSegsX s w = 1 := frameSegsX_of_zero s w hf
  have hfsy : GeometryGenerator.frameSegsY s h = 1 := frameSegsY_of_zero s h hf
  have hnotc : ¬0 < s.curveAngle := by
    rw [hc]
    exact lt_irrefl 0
  have htsx : (GeometryGenerator.totalSegsX s w).toNat = w + 2 := by
    unfold GeometryGenerator.totalSegsX
    rw [hfsx]
    omega
  have htsy : (GeometryGenerator.totalSegsY s h).toNat = h + 2 := by
    unfold GeometryGenerator.totalSegsY
    rw [hfsy]
    omega
  have hflat : GeometryGenerator.topVertex s w h hm x y =
      (GeometryGenerator.xFlat s w x, GeometryGenerator.yFlat s h y,
        GeometryGenerator.zVal s w h hm x y) := by
    unfold GeometryGenerator.topVertex
    rw [if_neg hnotc]
  refine ⟨hfsx, hfsy, htsx, htsy, ?_, ?_, ?_, ?_⟩
  · intro hx1 hx2 hy1 hy2
    rw [hflat]
    show GeometryGenerator.zVal s w h hm x y = _
    unfold GeometryGenerator.zVal GeometryGenerator.sampleX GeometryGenerator.sampleY
      GeometryGenerator.imgX GeometryGenerator.imgY
    rw [hfsx, hfsy]
    rw [if_pos (by omega)]
    rw [if_neg (by rw [hf]; intro hcon; exact absurd hcon.1 (lt_irrefl 0))]
    have hminy : (min ((y : ℤ) - 1) ((h : ℤ) - 1)).toNat = min (y - 1) (h - 1) := by
      omega
    have hminx : (min ((x : ℤ) - 1) ((w : ℤ) - 1)).toNat = min (x - 1) (w - 1) := by
      omega
    rw [hminy, hminx]
  · intro hcase
    rw [hflat]
    show GeometryGenerator.zVal s w h hm x y = _
    unfold GeometryGenerator.zVal GeometryGenerator.imgX GeometryGenerator.imgY
    rw [hfsx, hfsy]
    rw [if_neg (by rcases hcase with rfl | rfl | rfl | rfl <;> omega)]
  · unfold GeometryGenerator.botVertex
    rw [if_neg hnotc]
  · unfold GeometryGenerator.generatedTriangleCount
    rw [htsx, htsy, triangleCount_formula (w + 2) (h + 2) (by omega) (by omega)]

/-- Flat 1×1 mm, 1 px, no-frame, uncurved settings record used to
refute the claimed triangle count. -/
def flatUnitSettings : ModelSettings :=
  ⟨1, 1, 1, 0, false, 0, 0, 0, 0⟩

set_option maxRecDepth 4000 in
/-- C1 counterexample: for a 1×1 px heightmap with `curveAngle = 0` and
`frameWidth = 0`, the claimed count `4*W*H + 2*(W+H) = 8` is wrong —
the generator emits 60 triangles (the frame segment count is 1, not 0,
so the grid is 3×3 cells). -/
theorem relief_flat_noframe_counterexample :
    GeometryGenerator.generatedTriangleCount flatUnitSettings 1 1 ≠
      4 * (1 * 1) + 2 * (1 + 1) := by
  have hfsx : GeometryGenerator.frameSegsX flatUnitSettings 1 = 1 :=
    frameSegsX_of_zero flatUnitSettings 1 rfl
  have hfsy : GeometryGenerator.frameSegsY flatUnitSettings 1 = 1 :=
    frameSegsY_of_zero flatUnitSettings 1 rfl
  have htsx : (GeometryGenerator.totalSegsX flatUnitSettings 1).toNat = 3 := by
    unfold GeometryGenerator.totalSegsX
    rw [hfsx]
    rfl
  have htsy : (GeometryGenerator.totalSegsY flatUnitSettings 1).toNat = 3 := by
    unfold GeometryGenerator.totalSegsY
    rw [hfsy]
    rfl
  unfold GeometryGenerator.generatedTriangleCount
  rw [htsx, htsy]
  decide

/-- Concrete instantiation of `relief_flat_noframe` on the 1×1 px flat
model with constant heightmap 1/2. -/
theorem relief_flat_noframe_witness :
    flatUnitSettings.curveAngle = 0 ∧
    flatUnitSettings.frameWidth = 0 ∧
    (GeometryGenerator.topVertex flatUnitSettings 1 1 (fun _ => 1 / 2) 1 1).2.2 =
      flatUnitSettings.baseHeight +
        (fun _ : ℕ => (1 / 2 : ℝ)) (min (1 - 1) (1 - 1) * 1 + min (1 - 1) (1 - 1)) *
          flatUnitSettings.depth ∧
    (GeometryGenerator.botVertex flatUnitSettings 1 1 1 1).2.2 = 0 ∧
    GeometryGenerator.generatedTriangleCount flatUnitSettings 1 1 =
      4 * ((1 + 2) * (1 + 2)) + 4 * (1 + 2) + 4 * (1 + 2) := by
  have hmain := relief_flat_noframe flatUnitSettings 1 1 (fun _ => 1 / 2) 1 1
    rfl rfl (le_refl 1) (le_refl 1)
  exact ⟨rfl, rfl,
    hmain.2.2.2.2.1 (le_refl 1) (by norm_num) (le_refl 1) (by norm_num),
    hmain.2.2.2.2.2.2.1, hmain.2.2.2.2.2.2.2⟩
